import Mathlib

/-!
Verification development for the request-orchestration core of the Agentic
RAG system (Node.js): the delegating agent's classification/routing state
machine, the retrieval agent, the chart tool, and the response contract.

External collaborators (the Generator LLM service, the KnowledgeStore
vector database, and chart generation viewed as a capability) are modelled
as oracle values: each backend call's outcome is a parameter of type
`Except String α` (`.ok` = the call resolved, `.error` = it threw).
Numbers are modelled as rationals; JavaScript string operations
(`toLowerCase`, `includes`) are modelled on Lean strings.
-/

/-- JavaScript `s.toLowerCase()`: character-wise lower-casing, written on
the character list (pointwise the same as `String.toLower`, but in a form
the kernel evaluates). -/
def jsToLower (s : String) : String :=
  ⟨s.data.map Char.toLower⟩

/-- JavaScript `hay.includes(needle)`: contiguous-substring test. -/
def strIncludes (hay needle : String) : Bool :=
  decide (needle.toList.IsInfix hay.toList)

/-! ## Chart tool (src/src/tools/chart-tool.js)

The six static Chart.js templates are opaque to the core (only which
template was chosen matters), so each is represented by its tag. -/

/-- The keys of `CHART_TEMPLATES` in chart-tool.js. -/
inductive ChartTemplate where
  | employeeAttendance
  | leaveBalance
  | departmentDistribution
  | performanceMetrics
  | wellnessUsage
  | remoteWorkTrends
  deriving DecidableEq

/-- The `this.templates[name]` lookup: `some` exactly for the six template keys. -/
def ChartTool.templates (name : String) : Option ChartTemplate :=
  if name = "employeeAttendance" then some ChartTemplate.employeeAttendance
  else if name = "leaveBalance" then some ChartTemplate.leaveBalance
  else if name = "departmentDistribution" then some ChartTemplate.departmentDistribution
  else if name = "performanceMetrics" then some ChartTemplate.performanceMetrics
  else if name = "wellnessUsage" then some ChartTemplate.wellnessUsage
  else if name = "remoteWorkTrends" then some ChartTemplate.remoteWorkTrends
  else none

/-- A chart selection `{ chartTemplate, reasoning }`. -/
structure ChartSelection where
  chartTemplate : String
  reasoning : String
  deriving DecidableEq

/-- The JSON object `llmService.invokeJSON` parses for chart selection:
`chartTemplate` may be absent or null (`none`). -/
structure ChartSelResponse where
  chartTemplate : Option String
  reasoning : String
  deriving DecidableEq

/-- ChartTool.keywordBasedSelection: deterministic keyword fallback. -/
def ChartTool.keywordBasedSelection (query : String) : ChartSelection :=
  let queryLower := jsToLower query
  if strIncludes queryLower "attendance" then
    ⟨"employeeAttendance", "Keyword match: attendance"⟩
  else if strIncludes queryLower "leave" || strIncludes queryLower "vacation" then
    ⟨"leaveBalance", "Keyword match: leave"⟩
  else if strIncludes queryLower "department" || strIncludes queryLower "distribution" then
    ⟨"departmentDistribution", "Keyword match: department"⟩
  else if strIncludes queryLower "performance" || strIncludes queryLower "metric" then
    ⟨"performanceMetrics", "Keyword match: performance"⟩
  else if strIncludes queryLower "wellness" || strIncludes queryLower "benefit" then
    ⟨"wellnessUsage", "Keyword match: wellness"⟩
  else if strIncludes queryLower "remote" || strIncludes queryLower "work from home" then
    ⟨"remoteWorkTrends", "Keyword match: remote work"⟩
  else
    ⟨"employeeAttendance", "Default chart"⟩

/-- ChartTool.selectChartTemplate: `llm` is the outcome of the
`invokeJSON` call on the chart-selection prompt. A response whose
`chartTemplate` field is falsy or not a known template key is replaced by
the default; an LLM error falls back to keyword selection. -/
def ChartTool.selectChartTemplate (llm : Except String ChartSelResponse)
    (query : String) : ChartSelection :=
  match llm with
  | .ok response =>
    match response.chartTemplate with
    | some name =>
      if (ChartTool.templates name).isSome then ⟨name, response.reasoning⟩
      else ⟨"employeeAttendance", "Default fallback chart"⟩
    | none => ⟨"employeeAttendance", "Default fallback chart"⟩
  | .error _ => ChartTool.keywordBasedSelection query

/-- ChartTool.generateChart: selects a template and returns its
configuration; an unknown name yields the `employeeAttendance` default.
Every internal failure is caught (`selectChartTemplate` absorbs the only
throwing call), so the function is total. The `ragContext` argument only
affects the prompt text, not the control flow, and is omitted. -/
def ChartTool.generateChart (llm : Except String ChartSelResponse)
    (context : String) : ChartTemplate :=
  let selection := ChartTool.selectChartTemplate llm context
  match ChartTool.templates selection.chartTemplate with
  | some t => t
  | none => ChartTemplate.employeeAttendance

/-! ## Intent classification (DelegatingAgent.analyzeIntent and its fallback) -/

/-- The object parsed from the intent-classification LLM call. -/
structure Classification where
  intent : String
  confidence : ℚ
  deriving DecidableEq

/-- The `chartKeywords` list of `fallbackIntentClassification`. -/
def chartKeywords : List String :=
  ["chart", "graph", "visualize", "plot", "show me", "display"]

/-- The `ragKeywords` list of `fallbackIntentClassification`. -/
def ragKeywords : List String :=
  ["policy", "procedure", "how do i", "what is", "tell me about", "explain"]

/-- DelegatingAgent.fallbackIntentClassification: keyword-based intent
classification used when the LLM call fails. -/
def DelegatingAgent.fallbackIntentClassification (query : String) : Classification :=
  let queryLower := jsToLower query
  let hasChart := chartKeywords.any (fun kw => strIncludes queryLower kw)
  let hasRAG := ragKeywords.any (fun kw => strIncludes queryLower kw)
  if hasRAG && hasChart then ⟨"both", 6/10⟩
  else if hasChart then ⟨"chart", 6/10⟩
  else if hasRAG then ⟨"rag", 6/10⟩
  else ⟨"direct", 5/10⟩

/-- DelegatingAgent.analyzeIntent: returns the LLM classification, or the
keyword fallback when the structured Generator call errors or its output
does not parse (both mapped to `.error` per the Generator interface). -/
def DelegatingAgent.analyzeIntent (llm : Except String Classification)
    (input : String) : Classification :=
  match llm with
  | .ok classification => classification
  | .error _ => DelegatingAgent.fallbackIntentClassification input

/-! ## Routing (DelegatingAgent.routeByIntent) -/

/-- The `confidenceThreshold` set in the DelegatingAgent constructor. -/
def DelegatingAgent.confidenceThreshold : ℚ := 7/10

/-- The `routeMap` object literal of `routeByIntent`. -/
def DelegatingAgent.routeMap (intent : String) : Option String :=
  if intent = "rag" then some "ragAgentNode"
  else if intent = "chart" then some "chartToolNode"
  else if intent = "both" then some "ragAndChartNode"
  else if intent = "direct" then some "directResponseNode"
  else none

/-- DelegatingAgent.routeByIntent: low confidence forces the direct
branch; otherwise route per intent, unknown intents defaulting to the
direct branch. -/
def DelegatingAgent.routeByIntent (intent : String) (confidence : ℚ) : String :=
  if confidence < DelegatingAgent.confidenceThreshold then "directResponseNode"
  else (DelegatingAgent.routeMap intent).getD "directResponseNode"

/-! ## RAG agent (src/src/agents/rag-agent.js)

A knowledge-store record as the Weaviate client returns it: `fileId` may
be missing (`none`), and `distance` is absent (`none`) for records coming
from the `fetchObjects` fallback path. -/

/-- One search result (`{ properties: {fileId, question, answer}, distance }`). -/
structure SearchResult where
  fileId : Option String
  question : String
  answer : String
  distance : Option ℚ
  deriving DecidableEq

/-- One formatted source as built by `extractSources`. -/
structure Source where
  index : ℕ
  fileId : Option String
  question : String
  answer : String
  distance : ℚ
  deriving DecidableEq

/-- The structured output of RAGAgent.query (`{answer, fileIds, sources,
confidence, resultCount}`). -/
structure RetrievalResult where
  answer : String
  fileIds : List String
  sources : List SearchResult
  confidence : ℚ
  resultCount : ℕ
  deriving DecidableEq

/-- Outcomes of the backend calls one RAGAgent.query invocation can make:
the Weaviate `vectorSearch`, the Weaviate `fetchObjects` scan used by the
fallback search, the synthesis `llmService.invoke`, and the no-results
`llmService.invoke`. -/
structure RagEnv where
  vectorSearchResult : Except String (List SearchResult)
  fetchAllResult : Except String (List SearchResult)
  synthesisResult : Except String String
  noResultsLLM : Except String String

/-- The `config.app.ragMaxResults` default (3) read in the RAGAgent
constructor. -/
def RAGAgent.maxResults : ℕ := 3

/-- RAGAgent.fallbackSearch: on store-scan success, keep the records whose
lower-cased question or answer contains the lower-cased query, truncated
to `maxResults`; on a second failure return the empty list. -/
def RAGAgent.fallbackSearch (env : RagEnv) (query : String) : List SearchResult :=
  match env.fetchAllResult with
  | .ok allObjects =>
    let queryLower := jsToLower query
    let matched := allObjects.filter (fun obj =>
      strIncludes (jsToLower obj.question) queryLower ||
      strIncludes (jsToLower obj.answer) queryLower)
    matched.take RAGAgent.maxResults
  | .error _ => []

/-- RAGAgent.vectorSearch: the store call's results, or the fallback
search when the store call failed. -/
def RAGAgent.vectorSearch (env : RagEnv) (query : String) : List SearchResult :=
  match env.vectorSearchResult with
  | .ok results => results
  | .error _ => RAGAgent.fallbackSearch env query

/-- The body of `extractSources` (`results.map((result, index) => ...)`),
written with an explicit running index; a missing distance becomes 0
(`result.distance || 0`). -/
def RAGAgent.extractSourcesFrom (idx : ℕ) : List SearchResult → List Source
  | [] => []
  | r :: rs =>
    ⟨idx + 1, r.fileId, r.question, r.answer, r.distance.getD 0⟩ ::
      RAGAgent.extractSourcesFrom (idx + 1) rs

/-- RAGAgent.extractSources. -/
def RAGAgent.extractSources (results : List SearchResult) : List Source :=
  RAGAgent.extractSourcesFrom 0 results

/-- First-occurrence deduplication, the effect of `[...new Set(fileIds)]`. -/
def dedupFirstAux (seen : List String) : List String → List String
  | [] => []
  | x :: xs =>
    if x ∈ seen then dedupFirstAux seen xs
    else x :: dedupFirstAux (x :: seen) xs

/-- First-occurrence deduplication of a list of strings. -/
def dedupFirst (l : List String) : List String := dedupFirstAux [] l

/-- RAGAgent.extractFileIds: map to `fileId`, drop falsy entries (missing
ids and the empty string), deduplicate. -/
def RAGAgent.extractFileIds (results : List SearchResult) : List String :=
  dedupFirst (((results.map (fun r => r.fileId)).filterMap id).filter
    (fun id => id != ""))

/-- RAGAgent.calculateConfidence: 0 on an empty list, otherwise
`clamp(1 - d/2, 0, 1)` where `d` is the FIRST result's distance
(`results[0].distance || 0`). -/
def RAGAgent.calculateConfidence (results : List SearchResult) : ℚ :=
  match results with
  | [] => 0
  | r :: _ => max 0 (min 1 (1 - (r.distance.getD 0) / 2))

/-- RAGAgent.synthesizeAnswer: the synthesis LLM answer; if that call
failed, the first source's answer; if there is no source either, rethrow
the LLM error. -/
def RAGAgent.synthesizeAnswer (llm : Except String String)
    (sources : List Source) : Except String String :=
  match llm with
  | .ok answer => .ok answer
  | .error e =>
    match sources with
    | source :: _ => .ok source.answer
    | [] => .error e

/-- RAGAgent.handleNoResults: an LLM-generated apology, or the hard-coded
apology when that LLM call also fails; always zero results, zero
confidence, no fileIds. -/
def RAGAgent.handleNoResults (llm : Except String String) : RetrievalResult :=
  match llm with
  | .ok answer =>
    { answer := answer, fileIds := [], sources := [], confidence := 0, resultCount := 0 }
  | .error _ =>
    { answer := "I couldn't find specific information about that in our knowledge base. Please contact HR or IT support for assistance.",
      fileIds := [], sources := [], confidence := 0, resultCount := 0 }

/-- RAGAgent.query: search (with fallback), handle the empty case, else
extract sources and fileIds, score confidence, synthesize; an error of
the synthesis step that is not recovered is rethrown. -/
def RAGAgent.query (env : RagEnv) (userQuery : String) : Except String RetrievalResult :=
  match RAGAgent.vectorSearch env userQuery with
  | [] => .ok (RAGAgent.handleNoResults env.noResultsLLM)
  | r :: rs =>
    let searchResults := r :: rs
    let sources := RAGAgent.extractSources searchResults
    let fileIds := RAGAgent.extractFileIds searchResults
    let confidence := RAGAgent.calculateConfidence searchResults
    match RAGAgent.synthesizeAnswer env.synthesisResult sources with
    | .ok answer =>
      .ok { answer := answer, fileIds := fileIds, sources := searchResults,
            confidence := confidence, resultCount := searchResults.length }
    | .error e => .error e

/-! ## Delegating agent state machine (src/unnamed/part_001)

The LangGraph `AgentState` channels and the per-field reducer
`(x, y) => y ?? x`: a node returns a partial update, and a field for which
the node returned null or nothing keeps its previous value. A `Delta`
field of `none` covers both cases (they merge identically). -/

/-- The `references` object: which capabilities the chosen branch used. -/
structure References where
  rag : Bool
  chart : Bool
  deriving DecidableEq

/-- The LangGraph state channels of `AgentState`. -/
structure AgentState where
  input : String
  intent : String
  confidence : ℚ
  ragResults : Option RetrievalResult
  chartConfig : Option ChartTemplate
  answer : String
  references : References
  fileIds : List String
  errors : List String
  deriving DecidableEq

/-- A node's partial state update (`none` = field absent or null). -/
structure Delta where
  intent : Option String := none
  confidence : Option ℚ := none
  ragResults : Option RetrievalResult := none
  chartConfig : Option ChartTemplate := none
  answer : Option String := none
  references : Option References := none
  fileIds : Option (List String) := none
  errors : Option (List String) := none

/-- The per-channel reducer `(x, y) => y ?? x` applied to a whole update. -/
def applyDelta (s : AgentState) (d : Delta) : AgentState :=
  { input := s.input
    intent := d.intent.getD s.intent
    confidence := d.confidence.getD s.confidence
    ragResults := match d.ragResults with | some r => some r | none => s.ragResults
    chartConfig := match d.chartConfig with | some c => some c | none => s.chartConfig
    answer := d.answer.getD s.answer
    references := d.references.getD s.references
    fileIds := d.fileIds.getD s.fileIds
    errors := d.errors.getD s.errors }

/-- Node 1 (analyzeIntent) as a state update: LLM classification, or the
keyword fallback on an LLM failure. -/
def DelegatingAgent.analyzeIntentNode (llm : Except String Classification)
    (input : String) : Delta :=
  let classification := DelegatingAgent.analyzeIntent llm input
  { intent := some classification.intent, confidence := some classification.confidence }

/-- Node 2 (ragAgentNode): on success take the retrieval answer and
fileIds with references `{rag: true, chart: false}`; on an exception a
generic error answer with both flags false. -/
def DelegatingAgent.ragAgentNode (ragOutcome : Except String RetrievalResult) : Delta :=
  match ragOutcome with
  | .ok results =>
    { ragResults := some results, answer := some results.answer,
      references := some ⟨true, false⟩, fileIds := some results.fileIds }
  | .error e =>
    { answer := some "I encountered an error querying the knowledge base. Please try again.",
      references := some ⟨false, false⟩, fileIds := some [], errors := some [e] }

/-- Node 3 (chartToolNode): on success a fixed notice with references
`{rag: false, chart: true}`; on an exception a generic error answer with
both flags false (the chart config delta is null, so the channel keeps
its previous value). -/
def DelegatingAgent.chartToolNode (chartOutcome : Except String ChartTemplate) : Delta :=
  match chartOutcome with
  | .ok chartConfig =>
    { chartConfig := some chartConfig,
      answer := some "I've generated a chart for you based on your request.",
      references := some ⟨false, true⟩ }
  | .error e =>
    { answer := some "I encountered an error generating the chart. Please try again.",
      references := some ⟨false, false⟩, errors := some [e] }

/-- The rejection reason `Promise.all` delivers when at least one of the
two parallel calls fails (the code only logs it and stores it in
`errors`, so which of the two is recorded is diagnostic only). -/
def promiseAllError (ragOutcome : Except String RetrievalResult)
    (chartOutcome : Except String ChartTemplate) : String :=
  match ragOutcome with
  | .error e => e
  | .ok _ => match chartOutcome with | .error e => e | .ok _ => ""

/-- Node 4 (ragAndChartNode): run retrieval and chart generation in
parallel. If both succeed, combine them with both flags true. If either
fails, retry retrieval alone (`ragRetryOutcome` is that second, separate
call): on success degrade to retrieval-only with `{rag: true, chart:
false}` and the chart error recorded; if the retry also fails, a generic
error answer with both flags false. -/
def DelegatingAgent.ragAndChartNode (ragOutcome : Except String RetrievalResult)
    (chartOutcome : Except String ChartTemplate)
    (ragRetryOutcome : Except String RetrievalResult) : Delta :=
  match ragOutcome, chartOutcome with
  | .ok ragResults, .ok chartConfig =>
    { ragResults := some ragResults, chartConfig := some chartConfig,
      answer := some (ragResults.answer ++ "\n\nI've also generated a visualization for you."),
      references := some ⟨true, true⟩, fileIds := some ragResults.fileIds }
  | rag1, chart1 =>
    match ragRetryOutcome with
    | .ok ragResults =>
      { ragResults := some ragResults, answer := some ragResults.answer,
        references := some ⟨true, false⟩, fileIds := some ragResults.fileIds,
        errors := some ["Chart generation failed"] }
    | .error ragError =>
      { answer := some "I encountered an error processing your request. Please try again.",
        references := some ⟨false, false⟩,
        errors := some [promiseAllError rag1 chart1, ragError] }

/-- Node 5 (directResponseNode): the direct LLM answer with both flags
false; on failure a generic error answer. -/
def DelegatingAgent.directResponseNode (llm : Except String String) : Delta :=
  match llm with
  | .ok answer => { answer := some answer, references := some ⟨false, false⟩ }
  | .error e =>
    { answer := some "I'm sorry, I encountered an error. Please try again.",
      references := some ⟨false, false⟩, errors := some [e] }

/-! ## Response contract and assembly -/

/-- The contract-conformant response: `fileIds` and `chartConfig` are
optional keys (`none` = key absent), `references` is mandatory and its
flags are booleans by construction. -/
structure Response where
  answer : String
  references : References
  fileIds : Option (List String)
  chartConfig : Option ChartTemplate
  deriving DecidableEq

/-- Node 6 (formatResponseNode): the object the node constructs and
returns. An empty answer becomes the default; the `fileIds` key is added
only when `references.rag` is set and the accumulated list is non-empty;
`chartConfig` only when `references.chart` is set and a config is
present. The node's own catch handler cannot fire (the body is total)
and is not modelled. NOTE: like every node return value, this object is a
LangGraph STATE UPDATE, not the emitted response — `responseDelta` and
`invokeResult` below give its actual merge semantics. -/
def DelegatingAgent.formatResponseNode (state : AgentState) : Response :=
  { answer := if state.answer = "" then "No answer generated." else state.answer
    references := state.references
    fileIds :=
      if state.references.rag && !state.fileIds.isEmpty then some state.fileIds else none
    chartConfig :=
      if state.references.chart && state.chartConfig.isSome then state.chartConfig else none }

/-- Outcomes of every backend call one request can make. `chartOutcome`
is the ChartGenerator capability outcome consumed by the chart branches;
the in-repo chart tool instantiates it as `.ok (ChartTool.generateChart
llm input)`, which never fails. `ragRetryEnv` feeds the second, separate
retrieval call the combined branch makes inside its catch handler. -/
structure Oracles where
  classifyLLM : Except String Classification
  ragEnv : RagEnv
  ragRetryEnv : RagEnv
  chartOutcome : Except String ChartTemplate
  directLLM : Except String String

/-- The `initialState` literal of DelegatingAgent.process. -/
def initialState (input : String) : AgentState :=
  { input := input, intent := "", confidence := 0, ragResults := none,
    chartConfig := none, answer := "", references := ⟨false, false⟩,
    fileIds := [], errors := [] }

/-- The conditional-edge dispatch wired by `addConditionalEdges`: the
state update of the branch node named by `route` (any unknown name would
reach the direct-response node, mirroring the routing default). -/
def DelegatingAgent.branchDelta (o : Oracles) (input : String) (route : String) : Delta :=
  if route = "ragAgentNode" then
    DelegatingAgent.ragAgentNode (RAGAgent.query o.ragEnv input)
  else if route = "chartToolNode" then
    DelegatingAgent.chartToolNode o.chartOutcome
  else if route = "ragAndChartNode" then
    DelegatingAgent.ragAndChartNode (RAGAgent.query o.ragEnv input) o.chartOutcome
      (RAGAgent.query o.ragRetryEnv input)
  else
    DelegatingAgent.directResponseNode o.directLLM

/-- One run of the compiled graph up to (and excluding) the
formatResponse node: analyzeIntent, conditional routing, the chosen
branch node's update. -/
def DelegatingAgent.runGraphState (o : Oracles) (input : String) : AgentState :=
  let s0 := initialState input
  let s1 := applyDelta s0 (DelegatingAgent.analyzeIntentNode o.classifyLLM input)
  applyDelta s1 (DelegatingAgent.branchDelta o input
    (DelegatingAgent.routeByIntent s1.intent s1.confidence))

/-- The object formatResponseNode returns, read as the LangGraph state
update it actually is: a key present in the returned object updates its
channel, an absent key (`none`) leaves the channel at its previous
value — absence does NOT delete the channel. -/
def DelegatingAgent.responseDelta (r : Response) : Delta :=
  { answer := some r.answer, references := some r.references,
    fileIds := r.fileIds, chartConfig := r.chartConfig }

/-- What `graph.invoke` returns: the merged final state after the
formatResponse node's update. Because the reducer keeps a channel the
update omits, the fileIds and chartConfig channels survive unchanged
through formatResponse — the emitted object always carries the fileIds
key (an array, possibly empty) and the chartConfig channel (possibly
null), along with the diagnostic channels input, intent, confidence,
ragResults and errors. -/
def DelegatingAgent.invokeResult (o : Oracles) (input : String) : AgentState :=
  let s := DelegatingAgent.runGraphState o input
  applyDelta s (DelegatingAgent.responseDelta (DelegatingAgent.formatResponseNode s))

/-- The generic error Response built in DelegatingAgent.process's catch
handler: a literal object that genuinely has no fileIds or chartConfig
key. -/
def DelegatingAgent.errorResponse (message : String) : Response :=
  { answer := "I apologize, but I encountered an error processing your request: " ++ message,
    references := ⟨false, false⟩, fileIds := none, chartConfig := none }

/-- DelegatingAgent.process: runs the graph and returns `graph.invoke`'s
merged final state, given here as its contract-relevant projection: the
fileIds key is always present (the channel's array value, `some []` when
no branch filled it), and chartConfig is present exactly when the channel
is non-null (a key that is present but null and an absent key are
indistinguishable to every consumer, including the validator's truthiness
tests, so both are `none`). The full merged object, diagnostic channels
included, is `invokeResult`. Any unexpected internal exception
(initialization or graph-infrastructure failure, modelled by `infra`) is
caught and mapped to the generic error Response. -/
def DelegatingAgent.process (o : Oracles) (infra : Except String Unit)
    (input : String) : Response :=
  match infra with
  | .ok _ =>
    let f := DelegatingAgent.invokeResult o input
    { answer := f.answer, references := f.references,
      fileIds := some f.fileIds, chartConfig := f.chartConfig }
  | .error e => DelegatingAgent.errorResponse e

/-- validateResponseContract (src/src/utils/formatter.js): true iff no
contract error is collected — the answer is a non-empty string, a present
`fileIds` requires `references.rag`, and a present `chartConfig` requires
`references.chart` (the type checks of the original are structural here).
The original throws iff this returns false. -/
def validateResponseContract (response : Response) : Bool :=
  (response.answer != "") &&
  (match response.fileIds with
   | some _ => response.references.rag
   | none => true) &&
  (match response.chartConfig with
   | some _ => response.references.chart
   | none => true)

/-! ## Spec-side definitions and concrete fixtures -/

/-- Modelled from the spec (§4.1): the fallback classification stated by
cases — both keyword sets matched, only visualization words, only
knowledge words, neither. The spec names the intents `visualize` and
`retrieve`; the code's string tags for the same variants are `chart` and
`rag`. -/
def classifierFallbackSpec (query : String) : Classification :=
  let q := jsToLower query
  let visMatch := (["chart", "graph", "visualize", "plot", "show me", "display"] : List String).any
    (fun kw => strIncludes q kw)
  let knowMatch := (["policy", "procedure", "how do i", "what is", "tell me about", "explain"] : List String).any
    (fun kw => strIncludes q kw)
  if visMatch && knowMatch then ⟨"both", 6/10⟩
  else if visMatch && !knowMatch then ⟨"chart", 6/10⟩
  else if knowMatch && !visMatch then ⟨"rag", 6/10⟩
  else ⟨"direct", 5/10⟩

/-- The lowest distance among a result list (missing distances read as 0,
as the code does), from the spec's wording for confidence scoring. -/
def bestDistance : List SearchResult → ℚ
  | [] => 0
  | s :: rest => (rest.map (fun t => t.distance.getD 0)).foldl min (s.distance.getD 0)

/-- A retrieval environment with one well-formed HR record. -/
def hrEnv : RagEnv :=
  ⟨Except.ok [⟨some "HR-001", "What is the leave policy?", "Twenty days annually.", some 0⟩],
   Except.ok [], Except.ok "You get twenty days of leave annually.",
   Except.ok "No results apology."⟩

/-- Oracles that classify confidently as `both` while the chart
capability fails and retrieval sees `hrEnv`. -/
def degradeOracles : Oracles :=
  ⟨Except.ok ⟨"both", 8/10⟩, hrEnv, hrEnv,
   Except.error "chart service down", Except.ok "direct answer"⟩

/-- Oracles that classify confidently as `direct`. -/
def directOracles : Oracles :=
  ⟨Except.ok ⟨"direct", 9/10⟩, hrEnv, hrEnv,
   Except.ok ChartTemplate.employeeAttendance, Except.ok "The answer is 35."⟩

/-- Oracles that classify confidently as `chart`, with the chart
capability instantiated by the in-repo tool on a failed selection LLM. -/
def chartBranchOracles : Oracles :=
  ⟨Except.ok ⟨"chart", 9/10⟩, hrEnv, hrEnv,
   Except.ok (ChartTool.generateChart (Except.error "selection llm down") "show attendance"),
   Except.ok "direct answer"⟩

/-! ## Helper lemmas -/

theorem formatMerge_channels (s : AgentState) :
    (applyDelta s (DelegatingAgent.responseDelta (DelegatingAgent.formatResponseNode s))).fileIds
        = s.fileIds
    ∧ (applyDelta s (DelegatingAgent.responseDelta (DelegatingAgent.formatResponseNode s))).chartConfig
        = s.chartConfig
    ∧ (applyDelta s (DelegatingAgent.responseDelta (DelegatingAgent.formatResponseNode s))).references
        = s.references
    ∧ (applyDelta s (DelegatingAgent.responseDelta (DelegatingAgent.formatResponseNode s))).answer
        = (if s.answer = "" then "No answer generated." else s.answer)
    ∧ (applyDelta s (DelegatingAgent.responseDelta (DelegatingAgent.formatResponseNode s))).errors
        = s.errors := by
  cases hr : s.references.rag <;> cases hch : s.references.chart <;>
    cases hf : s.fileIds <;> cases hc : s.chartConfig <;>
      simp [applyDelta, DelegatingAgent.responseDelta, DelegatingAgent.formatResponseNode,
        hr, hch, hf, hc]

theorem invokeResult_channels (o : Oracles) (input : String) :
    (DelegatingAgent.invokeResult o input).fileIds
        = (DelegatingAgent.runGraphState o input).fileIds
    ∧ (DelegatingAgent.invokeResult o input).chartConfig
        = (DelegatingAgent.runGraphState o input).chartConfig
    ∧ (DelegatingAgent.invokeResult o input).references
        = (DelegatingAgent.runGraphState o input).references
    ∧ (DelegatingAgent.invokeResult o input).answer
        = (if (DelegatingAgent.runGraphState o input).answer = "" then "No answer generated."
            else (DelegatingAgent.runGraphState o input).answer)
    ∧ (DelegatingAgent.invokeResult o input).errors
        = (DelegatingAgent.runGraphState o input).errors :=
  formatMerge_channels (DelegatingAgent.runGraphState o input)

theorem branchDelta_invariants (o : Oracles) (input : String) (route : String)
    (s1 : AgentState) (h1 : s1.fileIds = []) (h2 : s1.chartConfig = none)
    (h3 : s1.references = ⟨false, false⟩) :
    ((applyDelta s1 (DelegatingAgent.branchDelta o input route)).fileIds = []
        ∨ (applyDelta s1 (DelegatingAgent.branchDelta o input route)).references.rag = true)
    ∧ ((applyDelta s1 (DelegatingAgent.branchDelta o input route)).chartConfig.isSome
        = (applyDelta s1 (DelegatingAgent.branchDelta o input route)).references.chart) := by
  unfold DelegatingAgent.branchDelta
  split_ifs with hA hB hC
  · cases hq : RAGAgent.query o.ragEnv input <;>
      simp [DelegatingAgent.ragAgentNode, applyDelta, h1, h2, h3]
  · cases hc : o.chartOutcome <;>
      simp [DelegatingAgent.chartToolNode, applyDelta, h1, h2, h3]
  · cases hq1 : RAGAgent.query o.ragEnv input <;>
      cases hc : o.chartOutcome <;>
        cases hq2 : RAGAgent.query o.ragRetryEnv input <;>
          simp [DelegatingAgent.ragAndChartNode, applyDelta, h1, h2, h3]
  · cases hd : o.directLLM <;>
      simp [DelegatingAgent.directResponseNode, applyDelta, h1, h2, h3]

theorem branch_state_invariants (o : Oracles) (input : String) :
    ((DelegatingAgent.runGraphState o input).fileIds = []
        ∨ (DelegatingAgent.runGraphState o input).references.rag = true)
    ∧ ((DelegatingAgent.runGraphState o input).chartConfig.isSome
        = (DelegatingAgent.runGraphState o input).references.chart) :=
  branchDelta_invariants o input
    (DelegatingAgent.routeByIntent
      (applyDelta (initialState input)
        (DelegatingAgent.analyzeIntentNode o.classifyLLM input)).intent
      (applyDelta (initialState input)
        (DelegatingAgent.analyzeIntentNode o.classifyLLM input)).confidence)
    (applyDelta (initialState input)
      (DelegatingAgent.analyzeIntentNode o.classifyLLM input))
    rfl rfl rfl

theorem errorResponse_answer_ne_empty (m : String) :
    ("I apologize, but I encountered an error processing your request: " ++ m) ≠ "" := by
  intro h
  have hl := congrArg String.length h
  rw [String.length_append] at hl
  rcases Nat.add_eq_zero.mp hl with ⟨h1, _⟩
  exact absurd h1 (by decide)

theorem dedupFirst_eq_nil_iff (l : List String) : dedupFirst l = [] ↔ l = [] := by
  cases l <;> simp [dedupFirst, dedupFirstAux]

theorem extractFileIds_ne_nil_iff (results : List SearchResult) :
    RAGAgent.extractFileIds results ≠ [] ↔ ∃ s ∈ results, s.fileId.getD "" ≠ "" := by
  unfold RAGAgent.extractFileIds
  rw [ne_eq, dedupFirst_eq_nil_iff, List.filter_eq_nil_iff]
  push_neg
  constructor
  · rintro ⟨a, ha, hne⟩
    rw [List.mem_filterMap] at ha
    obtain ⟨oa, hoa, hsome⟩ := ha
    rw [List.mem_map] at hoa
    obtain ⟨s, hs, rfl⟩ := hoa
    refine ⟨s, hs, ?_⟩
    cases hfid : s.fileId with
    | none => rw [hfid] at hsome; exact absurd hsome (by simp)
    | some v =>
      rw [hfid] at hsome
      simp only [id] at hsome
      cases hsome
      simpa [bne_iff_ne] using hne
  · rintro ⟨s, hs, hne⟩
    cases hfid : s.fileId with
    | none => rw [hfid] at hne; simp at hne
    | some v =>
      rw [hfid] at hne
      simp only [Option.getD_some] at hne
      refine ⟨v, ?_, by simpa [bne_iff_ne] using hne⟩
      rw [List.mem_filterMap]
      exact ⟨some v, List.mem_map.mpr ⟨s, hs, by rw [hfid]⟩, rfl⟩

theorem foldl_min_of_le (l : List ℚ) (d : ℚ) (h : ∀ x ∈ l, d ≤ x) :
    l.foldl min d = d := by
  induction l generalizing d with
  | nil => rfl
  | cons x xs ih =>
    simp only [List.foldl_cons]
    rw [min_eq_left (h x (by simp))]
    exact ih d (fun y hy => h y (by simp [hy]))

/-! ## Claim theorems -/

/-- C3: with classification confidence strictly below 0.7, routing picks the
direct-generation branch regardless of intent; at or above 0.7 it routes per
intent (`rag`/retrieve, `chart`/visualize, `both`, `direct`) to the
corresponding branch node. -/
theorem routeByIntent_policy (intent : String) (confidence : ℚ) :
    (confidence < 7/10 → DelegatingAgent.routeByIntent intent confidence = "directResponseNode")
    ∧ (7/10 ≤ confidence →
        DelegatingAgent.routeByIntent "rag" confidence = "ragAgentNode"
        ∧ DelegatingAgent.routeByIntent "chart" confidence = "chartToolNode"
        ∧ DelegatingAgent.routeByIntent "both" confidence = "ragAndChartNode"
        ∧ DelegatingAgent.routeByIntent "direct" confidence = "directResponseNode") := by
  constructor
  · intro h
    simp [DelegatingAgent.routeByIntent, DelegatingAgent.confidenceThreshold, h]
  · intro h
    have h2 : ¬ (confidence < DelegatingAgent.confidenceThreshold) := by
      rw [DelegatingAgent.confidenceThreshold]; exact not_lt.mpr h
    simp [DelegatingAgent.routeByIntent, h2, DelegatingAgent.routeMap]

/-- Witness for the routing policy at confidence 0.5 (below threshold) and
0.9 (above threshold). -/
theorem routeByIntent_policy_witness :
    DelegatingAgent.routeByIntent "both" (1/2) = "directResponseNode"
    ∧ DelegatingAgent.routeByIntent "rag" (9/10) = "ragAgentNode" :=
  ⟨(routeByIntent_policy "both" (1/2)).1 (by norm_num),
    ((routeByIntent_policy "rag" (9/10)).2 (by norm_num)).1⟩

/-- C9: the keyword fallback classification always has confidence at most
0.6, which is below the 0.7 routing threshold, so whenever the
classification LLM fails the router takes the direct-response branch no
matter which intent the fallback computed. -/
theorem fallback_confidence_forces_direct (e : String) (query : String) :
    DelegatingAgent.analyzeIntent (.error e) query
        = DelegatingAgent.fallbackIntentClassification query
    ∧ (DelegatingAgent.fallbackIntentClassification query).confidence ≤ 6/10
    ∧ DelegatingAgent.routeByIntent
        (DelegatingAgent.fallbackIntentClassification query).intent
        (DelegatingAgent.fallbackIntentClassification query).confidence
        = "directResponseNode" := by
  refine ⟨rfl, ?_, ?_⟩ <;>
  · unfold DelegatingAgent.fallbackIntentClassification
    cases hC : chartKeywords.any (fun kw => strIncludes (jsToLower query) kw) <;>
      cases hR : ragKeywords.any (fun kw => strIncludes (jsToLower query) kw) <;>
        norm_num [hC, hR, DelegatingAgent.routeByIntent,
          DelegatingAgent.confidenceThreshold]

/-- C8: when the classification LLM call errors or returns unparsable
output, the classifier returns exactly the deterministic keyword fallback
described by the spec: `both` at 0.6 when both keyword sets match, the
visualization intent (`chart`) at 0.6 when only visualization words match,
the knowledge intent (`rag`) at 0.6 when only knowledge words match, and
`direct` at 0.5 otherwise. -/
theorem classifier_fallback_matches_spec (e : String) (query : String) :
    DelegatingAgent.analyzeIntent (.error e) query = classifierFallbackSpec query := by
  show DelegatingAgent.fallbackIntentClassification query = classifierFallbackSpec query
  unfold DelegatingAgent.fallbackIntentClassification classifierFallbackSpec
  have h1 : (["chart", "graph", "visualize", "plot", "show me", "display"] : List String)
      = chartKeywords := rfl
  have h2 : (["policy", "procedure", "how do i", "what is", "tell me about", "explain"] : List String)
      = ragKeywords := rfl
  rw [h1, h2]
  cases hC : chartKeywords.any (fun kw => strIncludes (jsToLower query) kw) <;>
    cases hR : ragKeywords.any (fun kw => strIncludes (jsToLower query) kw) <;>
      simp [hC, hR]

/-- C4: RAGAgent.query resolves to a RetrievalResult for every query and
every combination of store and LLM outcomes — no error escapes to the
caller, because even a failed synthesis is recovered from the non-empty
source list. -/
theorem ragQuery_never_fails (env : RagEnv) (userQuery : String) :
    ∃ result, RAGAgent.query env userQuery = .ok result := by
  unfold RAGAgent.query
  cases hv : RAGAgent.vectorSearch env userQuery with
  | nil => exact ⟨_, rfl⟩
  | cons r rs =>
    cases hs : env.synthesisResult with
    | ok a =>
      simp only [RAGAgent.synthesizeAnswer, hs]
      exact ⟨_, rfl⟩
    | error e =>
      simp only [RAGAgent.synthesizeAnswer, hs, RAGAgent.extractSources,
        RAGAgent.extractSourcesFrom]
      exact ⟨_, rfl⟩

/-- C6: every RetrievalResult that RAGAgent.query resolves with and that
reports zero results has confidence 0 and an empty fileIds list — this
covers both the LLM-generated apology and the hard-coded apology
fallback, which are the only zero-result paths. -/
theorem zero_results_zero_confidence (env : RagEnv) (q : String)
    (result : RetrievalResult) (hok : RAGAgent.query env q = .ok result)
    (h0 : result.resultCount = 0) :
    result.confidence = 0 ∧ result.fileIds = [] := by
  revert hok
  unfold RAGAgent.query
  cases hv : RAGAgent.vectorSearch env q with
  | nil =>
    intro hok
    obtain rfl : RAGAgent.handleNoResults env.noResultsLLM = result := Except.ok.inj hok
    cases hnl : env.noResultsLLM <;> simp [RAGAgent.handleNoResults, hnl]
  | cons r rs =>
    cases hs : env.synthesisResult with
    | ok a =>
      simp only [RAGAgent.synthesizeAnswer, hs]
      intro hok
      obtain rfl := Except.ok.inj hok
      simp at h0
    | error e =>
      simp only [RAGAgent.synthesizeAnswer, hs, RAGAgent.extractSources,
        RAGAgent.extractSourcesFrom]
      intro hok
      obtain rfl := Except.ok.inj hok
      simp at h0

/-- Witness for the zero-result invariant on the hard-coded apology path:
an empty store with a failing no-results LLM. -/
theorem zero_results_zero_confidence_witness :
    (RAGAgent.handleNoResults (Except.error "llm down")).confidence = 0
    ∧ (RAGAgent.handleNoResults (Except.error "llm down")).fileIds = [] :=
  zero_results_zero_confidence
    ⟨Except.ok [], Except.ok [], Except.ok "a", Except.error "llm down"⟩
    "any query" _ rfl rfl

/-- C5: when the first returned record has the lowest distance (the
store returns results ordered by ascending distance, and fallback-search
records all read as distance 0), the computed confidence is
`clamp(1 - bestDistance/2, 0, 1)` for the lowest distance among the
records; it lies in `[0, 1]` and the clamp is monotonically decreasing in
the distance. -/
theorem calculateConfidence_clamped_best (r : SearchResult) (rs : List SearchResult)
    (hmin : ∀ s ∈ r :: rs, r.distance.getD 0 ≤ s.distance.getD 0) :
    RAGAgent.calculateConfidence (r :: rs)
        = max 0 (min 1 (1 - bestDistance (r :: rs) / 2))
    ∧ 0 ≤ RAGAgent.calculateConfidence (r :: rs)
    ∧ RAGAgent.calculateConfidence (r :: rs) ≤ 1
    ∧ (∀ d1 d2 : ℚ, d1 ≤ d2 → max 0 (min 1 (1 - d2 / 2)) ≤ max 0 (min 1 (1 - d1 / 2))) := by
  have hbest : bestDistance (r :: rs) = r.distance.getD 0 := by
    unfold bestDistance
    refine foldl_min_of_le _ _ ?_
    intro x hx
    obtain ⟨s, hsmem, rfl⟩ := List.mem_map.mp hx
    exact hmin s (List.mem_cons_of_mem _ hsmem)
  refine ⟨?_, ?_, ?_, ?_⟩
  · rw [hbest]; rfl
  · exact le_max_left 0 _
  · simp only [RAGAgent.calculateConfidence]
    exact max_le (by norm_num) (min_le_left _ _)
  · intro d1 d2 h
    refine max_le_max le_rfl (min_le_min le_rfl ?_)
    linarith

/-- Witness for the confidence formula on a two-record list with best
distance 1/2 in front. -/
theorem calculateConfidence_clamped_best_witness :
    RAGAgent.calculateConfidence
        [⟨some "HR-001", "q1", "a1", some (1/2)⟩, ⟨some "HR-002", "q2", "a2", some 1⟩]
      = max 0 (min 1 (1 - bestDistance
          [⟨some "HR-001", "q1", "a1", some (1/2)⟩,
           ⟨some "HR-002", "q2", "a2", some 1⟩] / 2)) :=
  (calculateConfidence_clamped_best ⟨some "HR-001", "q1", "a1", some (1/2)⟩
    [⟨some "HR-002", "q2", "a2", some 1⟩]
    (by intro s hs; fin_cases hs <;> norm_num)).1

/-- C2 (code bug): on a confidently-classified direct query the emitted
object — the merged graph state — carries the always-present fileIds key
(value `some []`, a truthy array) with `references.rag = false`, so the
repository's own validateResponseContract reports a contract violation
and throws; the never-throws half of the claim does hold: an internal
exception is mapped to the generic error Response, which the validator
accepts. -/
theorem process_contract_violation :
    validateResponseContract
        (DelegatingAgent.process directOracles (Except.ok ()) "what is 5 times 7") = false
    ∧ (DelegatingAgent.process directOracles (Except.ok ()) "what is 5 times 7").fileIds
        = some []
    ∧ (DelegatingAgent.process directOracles (Except.ok ()) "what is 5 times 7").references
        = ⟨false, false⟩
    ∧ ∀ (o : Oracles) (e : String) (input : String),
        DelegatingAgent.process o (Except.error e) input = DelegatingAgent.errorResponse e
        ∧ validateResponseContract (DelegatingAgent.errorResponse e) = true := by
  have h9 : ¬ ((9:ℚ)/10 < 7/10) := by norm_num
  have hp : DelegatingAgent.process directOracles (Except.ok ()) "what is 5 times 7"
      = { answer := "The answer is 35.", references := ⟨false, false⟩,
          fileIds := some [], chartConfig := none } := by
    simp [DelegatingAgent.process, DelegatingAgent.invokeResult, DelegatingAgent.runGraphState,
      DelegatingAgent.branchDelta, initialState, applyDelta, DelegatingAgent.analyzeIntentNode,
      DelegatingAgent.analyzeIntent, DelegatingAgent.routeByIntent,
      DelegatingAgent.confidenceThreshold, DelegatingAgent.routeMap,
      DelegatingAgent.directResponseNode, directOracles, DelegatingAgent.responseDelta,
      DelegatingAgent.formatResponseNode, h9]
  refine ⟨by rw [hp]; decide, by rw [hp], by rw [hp], ?_⟩
  intro o e input
  refine ⟨rfl, ?_⟩
  simp only [validateResponseContract, DelegatingAgent.errorResponse, Bool.and_eq_true, and_true]
  exact bne_iff_ne.mpr (errorResponse_answer_ne_empty e)

/-- C1 (amended): on every graph-path emission, the fileIds key is
always present — it is the merged state's fileIds channel (an array,
possibly empty), so presence does not track `references.rag`; what holds
instead is that a NON-EMPTY fileIds channel implies `references.rag` is
true. The chartSpec half survives as stated: a (non-null) chartConfig is
present iff `references.chart` is true. `references` is always present
with boolean flags (by type), and the fileIds list of a retrieval is
non-empty exactly when some retrieved record carried a non-empty
fileId. -/
theorem response_field_invariants (o : Oracles) (input : String) :
    (DelegatingAgent.process o (.ok ()) input).fileIds
        = some (DelegatingAgent.invokeResult o input).fileIds
    ∧ ((DelegatingAgent.invokeResult o input).fileIds = []
        ∨ (DelegatingAgent.invokeResult o input).references.rag = true)
    ∧ ((DelegatingAgent.invokeResult o input).chartConfig.isSome
        = (DelegatingAgent.invokeResult o input).references.chart)
    ∧ (DelegatingAgent.process o (.ok ()) input).references
        = (DelegatingAgent.invokeResult o input).references
    ∧ ∀ results : List SearchResult,
        (RAGAgent.extractFileIds results ≠ [] ↔ ∃ s ∈ results, s.fileId.getD "" ≠ "") := by
  have hch := invokeResult_channels o input
  have hbr := branch_state_invariants o input
  refine ⟨rfl, ?_, ?_, rfl, extractFileIds_ne_nil_iff⟩
  · rw [hch.1, hch.2.2.1]
    exact hbr.1
  · rw [hch.2.1, hch.2.2.1]
    exact hbr.2

/-- Counterexample to C1 as stated: a confidently-classified direct query
performs no retrieval at all (`ragResults` stays null and
`references.rag` is false), yet the emitted object still carries the
fileIds key, with value `[]` — the claimed presence-iff fails. -/
theorem response_field_invariants_counterexample :
    (DelegatingAgent.process directOracles (Except.ok ()) "what is 5 times 7").fileIds
        = some []
    ∧ (DelegatingAgent.process directOracles (Except.ok ()) "what is 5 times 7").references.rag
        = false
    ∧ (DelegatingAgent.runGraphState directOracles "what is 5 times 7").ragResults
        = none := by
  have h9 : ¬ ((9:ℚ)/10 < 7/10) := by norm_num
  simp [DelegatingAgent.process, DelegatingAgent.invokeResult, DelegatingAgent.runGraphState,
    DelegatingAgent.branchDelta, initialState, applyDelta, DelegatingAgent.analyzeIntentNode,
    DelegatingAgent.analyzeIntent, DelegatingAgent.routeByIntent,
    DelegatingAgent.confidenceThreshold, DelegatingAgent.routeMap,
    DelegatingAgent.directResponseNode, directOracles, DelegatingAgent.responseDelta,
    DelegatingAgent.formatResponseNode, h9]

/-- C7: in the combined branch (confident `both` classification), a
ChartGenerator failure with a successful retrieval call degrades the
request to retrieval-only: the emitted object has references
`{rag: true, chart: false}`, keeps the retrieval answer, records the
chart error in the errors channel, emits no chartSpec, carries the
retrieval's fileIds (the merged state's fileIds channel, so the ids of
every retrieved record that had one are included), and the request
resolves normally instead of failing. -/
theorem combined_branch_degrades (o : Oracles) (input : String)
    (cls : Classification) (e : String) (rr : RetrievalResult)
    (hcls : o.classifyLLM = .ok cls) (hintent : cls.intent = "both")
    (hconf : 7/10 ≤ cls.confidence) (hchart : o.chartOutcome = .error e)
    (hretry : RAGAgent.query o.ragRetryEnv input = .ok rr) :
    (DelegatingAgent.process o (.ok ()) input).references = ⟨true, false⟩
    ∧ (DelegatingAgent.process o (.ok ()) input).answer
        = (if rr.answer = "" then "No answer generated." else rr.answer)
    ∧ (DelegatingAgent.process o (.ok ()) input).chartConfig = none
    ∧ (DelegatingAgent.process o (.ok ()) input).fileIds = some rr.fileIds
    ∧ (DelegatingAgent.runGraphState o input).errors = ["Chart generation failed"] := by
  have hnl : ¬ (cls.confidence < DelegatingAgent.confidenceThreshold) := by
    rw [DelegatingAgent.confidenceThreshold]; exact not_lt.mpr hconf
  have hstate : DelegatingAgent.runGraphState o input
      = { input := input, intent := "both", confidence := cls.confidence,
          ragResults := some rr, chartConfig := none, answer := rr.answer,
          references := ⟨true, false⟩, fileIds := rr.fileIds,
          errors := ["Chart generation failed"] } := by
    cases hq1 : RAGAgent.query o.ragEnv input <;>
      simp [DelegatingAgent.runGraphState, DelegatingAgent.branchDelta,
        DelegatingAgent.analyzeIntentNode, DelegatingAgent.analyzeIntent, hcls, hintent,
        initialState, applyDelta, DelegatingAgent.routeByIntent, hnl,
        DelegatingAgent.routeMap, DelegatingAgent.ragAndChartNode, hchart, hretry, hq1]
  refine ⟨?_, ?_, ?_, ?_, ?_⟩ <;>
    simp only [DelegatingAgent.process, DelegatingAgent.invokeResult, hstate,
      DelegatingAgent.responseDelta, DelegatingAgent.formatResponseNode, applyDelta] <;>
      first
        | rfl
        | (cases hfi : rr.fileIds <;> simp)

/-- Witness for the degrade behavior: confident `both` classification,
failing chart capability, one well-formed HR record retrieved. -/
theorem combined_branch_degrades_witness :
    (DelegatingAgent.process degradeOracles (Except.ok ())
        "explain the leave policy and show a chart").references = ⟨true, false⟩
    ∧ (DelegatingAgent.process degradeOracles (Except.ok ())
        "explain the leave policy and show a chart").fileIds = some ["HR-001"] := by
  have h := combined_branch_degrades degradeOracles "explain the leave policy and show a chart"
    ⟨"both", 8/10⟩ "chart service down"
    ⟨"You get twenty days of leave annually.", ["HR-001"],
      [⟨some "HR-001", "What is the leave policy?", "Twenty days annually.", some 0⟩], 1, 1⟩
    rfl rfl (by norm_num) rfl
    (by norm_num [RAGAgent.query, RAGAgent.vectorSearch, degradeOracles, hrEnv,
      RAGAgent.extractSources, RAGAgent.extractSourcesFrom, RAGAgent.extractFileIds,
      RAGAgent.calculateConfidence, RAGAgent.synthesizeAnswer, dedupFirst, dedupFirstAux])
  exact ⟨h.1, h.2.2.2.1⟩

/-- C10 (amended): chart generation is total — an LLM selection failure
falls back to deterministic keyword selection (whose every outcome is a
valid template, with `employeeAttendance` as the no-keyword default), an
unknown or missing template name yields `employeeAttendance` — and the
Visualizing branch, with the chart capability instantiated by the
in-repo tool, always emits (in the merged state process returns)
`references.chart = true` with the chartConfig present (its error
handler is unreachable). -/
theorem generateChart_total_and_fallbacks (e q name r input : String)
    (o : Oracles) (cls : Classification) (llm : Except String ChartSelResponse)
    (hname : ChartTool.templates name = none)
    (hcls : o.classifyLLM = .ok cls) (hintent : cls.intent = "chart")
    (hconf : 7/10 ≤ cls.confidence)
    (hchart : o.chartOutcome = .ok (ChartTool.generateChart llm input)) :
    (∃ t, ChartTool.templates (ChartTool.keywordBasedSelection q).chartTemplate = some t
        ∧ ChartTool.generateChart (.error e) q = t)
    ∧ ChartTool.generateChart (.ok ⟨some name, r⟩) q = ChartTemplate.employeeAttendance
    ∧ ChartTool.generateChart (.ok ⟨none, r⟩) q = ChartTemplate.employeeAttendance
    ∧ (ChartTool.keywordBasedSelection "").chartTemplate = "employeeAttendance"
    ∧ (DelegatingAgent.process o (.ok ()) input).references = ⟨false, true⟩
    ∧ (DelegatingAgent.process o (.ok ()) input).chartConfig
        = some (ChartTool.generateChart llm input) := by
  have hnl : ¬ (cls.confidence < DelegatingAgent.confidenceThreshold) := by
    rw [DelegatingAgent.confidenceThreshold]; exact not_lt.mpr hconf
  have hstate : DelegatingAgent.runGraphState o input
      = { input := input, intent := "chart", confidence := cls.confidence,
          ragResults := none, chartConfig := some (ChartTool.generateChart llm input),
          answer := "I've generated a chart for you based on your request.",
          references := ⟨false, true⟩, fileIds := [], errors := [] } := by
    simp [DelegatingAgent.runGraphState, DelegatingAgent.branchDelta,
      DelegatingAgent.analyzeIntentNode, DelegatingAgent.analyzeIntent, hcls, hintent,
      initialState, applyDelta, DelegatingAgent.routeByIntent, hnl,
      DelegatingAgent.routeMap, DelegatingAgent.chartToolNode, hchart]
  have hsel : ∃ t, ChartTool.templates (ChartTool.keywordBasedSelection q).chartTemplate
      = some t := by
    unfold ChartTool.keywordBasedSelection
    dsimp only
    split_ifs <;> exact ⟨_, rfl⟩
  obtain ⟨t, ht⟩ := hsel
  refine ⟨⟨t, ht, ?_⟩, ?_, ?_, ?_, ?_, ?_⟩
  · simp [ChartTool.generateChart, ChartTool.selectChartTemplate, ht]
  · have hEA : ChartTool.templates "employeeAttendance"
        = some ChartTemplate.employeeAttendance := rfl
    simp [ChartTool.generateChart, ChartTool.selectChartTemplate, hname, hEA]
  · have hEA : ChartTool.templates "employeeAttendance"
        = some ChartTemplate.employeeAttendance := rfl
    simp [ChartTool.generateChart, ChartTool.selectChartTemplate, hEA]
  · decide
  · simp only [DelegatingAgent.process, DelegatingAgent.invokeResult, hstate,
      DelegatingAgent.responseDelta, DelegatingAgent.formatResponseNode, applyDelta]
    rfl
  · simp only [DelegatingAgent.process, DelegatingAgent.invokeResult, hstate,
      DelegatingAgent.responseDelta, DelegatingAgent.formatResponseNode, applyDelta]
    simp

/-- Witness for chart totality and the Visualizing branch with the
in-repo tool instantiation on a failed selection LLM. -/
theorem generateChart_total_and_fallbacks_witness :
    (DelegatingAgent.process chartBranchOracles (Except.ok ()) "show attendance").references
        = ⟨false, true⟩
    ∧ (DelegatingAgent.process chartBranchOracles (Except.ok ()) "show attendance").chartConfig
        = some (ChartTool.generateChart (Except.error "selection llm down") "show attendance") := by
  have h := generateChart_total_and_fallbacks "selection llm down" "show attendance"
    "unknownTemplate" "no reason" "show attendance" chartBranchOracles ⟨"chart", 9/10⟩
    (Except.error "selection llm down") (by decide) rfl rfl (by norm_num) rfl
  exact ⟨h.2.2.2.2.1, h.2.2.2.2.2⟩

/-- Counterexample to C10 as stated: on a Generator selection failure for
a query mentioning leave, generateChart returns the leaveBalance
template, not the employeeAttendance default. -/
theorem generateChart_default_counterexample :
    ChartTool.generateChart (Except.error "llm down") "show my leave balance"
        = ChartTemplate.leaveBalance
    ∧ ChartTemplate.leaveBalance ≠ ChartTemplate.employeeAttendance :=
  ⟨by decide, by decide⟩
